import Mathlib

/-!
Shallow embedding of the kernel-image verification engine of
`src/vkernel/kernel_image_fw.c` (flatcar-linux/seismograph).

Byte buffers (`uint8_t*`) are modelled as total functions `Nat → Nat`
(`Blob`); each read truncates to a byte with `% 256`, mirroring `uint8_t`
memory.  The cryptographic collaborators declared in `cryptolib.h`
(digest provider, RSA signature provider, algorithm tables) and absent
from the repository core are abstracted as an explicit environment
record `Env`, exactly as §6 of the design document treats them.
-/

/-- A byte buffer: the byte stored at each offset.  Models `uint8_t*`. -/
def Blob : Type := Nat → Nat

/-- The byte read at offset `i` (uint8 truncation). -/
def byte (b : Blob) (i : Nat) : Nat := b i % 256

/-- Pointer arithmetic `b + n`. -/
def Blob.drop (b : Blob) (n : Nat) : Blob := fun i => b (n + i)

/-- Little-endian `uint16_t` read (`Memcpy` of two bytes). -/
def readU16 (b : Blob) (i : Nat) : Nat := byte b i + 256 * byte b (i + 1)

/-- Little-endian `uint64_t` read (`Memcpy` of eight bytes). -/
def readU64 (b : Blob) (i : Nat) : Nat :=
  byte b i + 256 * (byte b (i + 1) + 256 * (byte b (i + 2) + 256 * (byte b (i + 3) +
    256 * (byte b (i + 4) + 256 * (byte b (i + 5) + 256 * (byte b (i + 6) +
    256 * byte b (i + 7)))))))

/-- The list of `n` bytes starting at offset `off` (the range a
`SafeMemcmp` compares). -/
def blobBytes (b : Blob) (off n : Nat) : List Nat :=
  (List.range n).map fun k => byte b (off + k)

/-- Modelled from the spec: `CombineUint16Pair` from `utility.h` (absent
from src): `(uint32_t) ((msw << 16) | lsw)` on two `uint16_t` arguments;
the `% 65536` embeds the `uint16_t` parameter types. -/
def CombineUint16Pair (msw lsw : Nat) : Nat :=
  ((msw % 65536) <<< 16) ||| (lsw % 65536)

/-- Modelled from the spec: field sizes of the `KernelImage` wire layout
(§3), from `kernel_image.h` which is absent from src.  `header_version`,
`header_len`, the two algorithm IDs, `kernel_key_version` and
`kernel_version` are `uint16_t`. -/
def FIELD_LEN_header_version : Nat := 2

def FIELD_LEN_header_len : Nat := 2

def FIELD_LEN_firmware_sign_algorithm : Nat := 2

def FIELD_LEN_kernel_sign_algorithm : Nat := 2

def FIELD_LEN_kernel_key_version : Nat := 2

def FIELD_LEN_kernel_version : Nat := 2

/-- Modelled from the spec: the header checksum is a SHA-512 digest (§4.2),
so the field is 64 bytes wide. -/
def FIELD_LEN_header_checksum : Nat := 64

/-- Modelled from the spec: sizes of the boot-options sub-fields of the
config block (§3): options version, command line, 64-bit kernel length,
load and entry addresses. -/
def FIELD_LEN_options_version : Nat := 4

def FIELD_LEN_options_cmd_line : Nat := 256

def FIELD_LEN_options_kernel_len : Nat := 8

def FIELD_LEN_options_kernel_load_addr : Nat := 8

def FIELD_LEN_options_kernel_entry_addr : Nat := 8

/-- The `KERNEL_CONFIG_FIELD_LEN` macro of `kernel_image_fw.c`. -/
def KERNEL_CONFIG_FIELD_LEN : Nat :=
  FIELD_LEN_kernel_version + FIELD_LEN_options_version +
  FIELD_LEN_options_cmd_line + FIELD_LEN_options_kernel_len +
  FIELD_LEN_options_kernel_load_addr + FIELD_LEN_options_kernel_entry_addr

/-- Modelled from the spec: `KERNEL_MAGIC_SIZE` from `kernel_image.h`
(absent from src); the magic prefix is the 8 bytes of "CHROMEOS". -/
def KERNEL_MAGIC_SIZE : Nat := 8

/-- Modelled from the spec: the `KERNEL_MAGIC` bytes ("CHROMEOS"). -/
def KERNEL_MAGIC_BYTES : List Nat := [0x43, 0x48, 0x52, 0x4F, 0x4D, 0x45, 0x4F, 0x53]

/-- Modelled from the spec: the digest-algorithm identifier passed to the
digest provider for the header checksum; its numeric value is irrelevant
to the engine. -/
def SHA512_DIGEST_ALGORITHM : Nat := 2

/-- Error codes, in the order fixed by `kVerifyKernelErrors` in
`kernel_image_fw.c`. -/
def VERIFY_KERNEL_SUCCESS : Nat := 0

def VERIFY_KERNEL_INVALID_IMAGE : Nat := 1

def VERIFY_KERNEL_KEY_SIGNATURE_FAILED : Nat := 2

def VERIFY_KERNEL_INVALID_ALGORITHM : Nat := 3

def VERIFY_KERNEL_CONFIG_SIGNATURE_FAILED : Nat := 4

def VERIFY_KERNEL_SIGNATURE_FAILED : Nat := 5

def VERIFY_KERNEL_WRONG_MAGIC : Nat := 6

/-- Modelled from the spec: the three boot-path sentinels returned by
`VerifyKernelDriver_f` (§4.3 step 6 requires recovery to be distinct
from both kernel slots); their concrete values are not observable. -/
def BOOT_KERNEL_A_CONTINUE : Nat := 0

def BOOT_KERNEL_B_CONTINUE : Nat := 1

def BOOT_KERNEL_RECOVERY_CONTINUE : Nat := 2

/-- A parsed RSA public key: `RSAPublicKeyFromBuf` retains the raw bytes
and the processed key length (the key object is opaque to this engine). -/
structure RSAPublicKey where
  buf : Blob
  len : Nat

/-- Models `RSAPublicKeyFromBuf(buf, len)`. -/
def RSAPublicKeyFromBuf (buf : Blob) (len : Nat) : RSAPublicKey := ⟨buf, len⟩

/-- The cryptographic collaborators of `cryptolib.h` (external to the
core per §6): the supported-algorithm count, the key-size and
signature-length tables, the one-shot and two-span digest providers, and
the three RSA verification entry points used by the engine. -/
structure Env where
  kNumAlgorithms : Nat
  RSAProcessedKeySize : Nat → Nat
  siglen_map : Nat → Nat
  DigestBuf : Blob → Nat → Nat → Blob
  DigestTwo : Nat → Blob → Nat → Blob → Nat → Blob
  rsaVerifyRaw : Blob → Blob → Nat → Blob → Nat → Bool
  rsaVerifyKey : RSAPublicKey → Blob → Nat → Blob → Nat → Bool
  rsaVerifyDigest : RSAPublicKey → Blob → Blob → Nat → Bool

/-- Result record of `VerifyKernelHeader`: the returned error code plus
the final contents of the three out-parameter locations (a location an
early return leaves unwritten keeps its initial contents). -/
structure HeaderOut where
  code : Nat
  firmware_algorithm : Nat
  kernel_algorithm : Nat
  kernel_header_len : Nat
deriving DecidableEq

/-- Function `VerifyKernelHeader` of `kernel_image_fw.c`.  `fa0`, `ka0`, `khl0`
are the initial contents of the caller's `firmware_algorithm`,
`kernel_algorithm` and `kernel_header_len` out-parameter locations. -/
def VerifyKernelHeader (env : Env) (firmware_key_blob header_blob : Blob)
    (dev_mode : Bool) (fa0 ka0 khl0 : Nat) : HeaderOut :=
  let base_header_checksum_offset :=
    FIELD_LEN_header_version + FIELD_LEN_header_len +
    FIELD_LEN_firmware_sign_algorithm + FIELD_LEN_kernel_sign_algorithm +
    FIELD_LEN_kernel_key_version
  let header_len := readU16 header_blob FIELD_LEN_header_version
  let firmware_sign_algorithm :=
    readU16 header_blob (FIELD_LEN_header_version + FIELD_LEN_header_len)
  let kernel_sign_algorithm :=
    readU16 header_blob (FIELD_LEN_header_version + FIELD_LEN_header_len +
      FIELD_LEN_firmware_sign_algorithm)
  if env.kNumAlgorithms ≤ firmware_sign_algorithm then
    ⟨VERIFY_KERNEL_INVALID_ALGORITHM, fa0, ka0, khl0⟩
  else if env.kNumAlgorithms ≤ kernel_sign_algorithm then
    ⟨VERIFY_KERNEL_INVALID_ALGORITHM, fa0, ka0, khl0⟩
  else
    let kernel_sign_key_len := env.RSAProcessedKeySize kernel_sign_algorithm
    if header_len ≠ base_header_checksum_offset + kernel_sign_key_len +
        FIELD_LEN_header_checksum then
      ⟨VERIFY_KERNEL_INVALID_IMAGE, firmware_sign_algorithm,
        kernel_sign_algorithm, khl0⟩
    else
      let header_checksum :=
        env.DigestBuf header_blob (header_len - FIELD_LEN_header_checksum)
          SHA512_DIGEST_ALGORITHM
      if blobBytes header_checksum 0 FIELD_LEN_header_checksum ≠
          blobBytes header_blob (base_header_checksum_offset + kernel_sign_key_len)
            FIELD_LEN_header_checksum then
        ⟨VERIFY_KERNEL_INVALID_IMAGE, firmware_sign_algorithm,
          kernel_sign_algorithm, header_len⟩
      else if dev_mode then
        ⟨VERIFY_KERNEL_SUCCESS, firmware_sign_algorithm,
          kernel_sign_algorithm, header_len⟩
      else if env.rsaVerifyRaw firmware_key_blob header_blob header_len
          (Blob.drop header_blob header_len) firmware_sign_algorithm then
        ⟨VERIFY_KERNEL_SUCCESS, firmware_sign_algorithm,
          kernel_sign_algorithm, header_len⟩
      else
        ⟨VERIFY_KERNEL_KEY_SIGNATURE_FAILED, firmware_sign_algorithm,
          kernel_sign_algorithm, header_len⟩

/-- Function `VerifyKernelConfig` of `kernel_image_fw.c`.  `kernel_len0` is the
initial contents of the caller's `kernel_len` out-parameter location;
the returned pair is (error code, final contents of that location). -/
def VerifyKernelConfig (env : Env) (kernel_sign_key : RSAPublicKey)
    (config_blob : Blob) (algorithm : Nat) (kernel_len0 : Nat) : Nat × Nat :=
  if ¬ env.rsaVerifyKey kernel_sign_key config_blob KERNEL_CONFIG_FIELD_LEN
      (Blob.drop config_blob KERNEL_CONFIG_FIELD_LEN) algorithm then
    (VERIFY_KERNEL_CONFIG_SIGNATURE_FAILED, kernel_len0)
  else
    (VERIFY_KERNEL_SUCCESS,
      readU64 config_blob (FIELD_LEN_kernel_version + FIELD_LEN_options_version +
        FIELD_LEN_options_cmd_line))

/-- Function `VerifyKernelData` of `kernel_image_fw.c`: the payload digest is
computed incrementally over the config span and the payload span
(`DigestTwo` models the `DigestInit`/`DigestUpdate`/`DigestFinal`
sequence) and verified against the signature at `kernel_data_start`. -/
def VerifyKernelData (env : Env) (kernel_sign_key : RSAPublicKey)
    (kernel_config_start kernel_data_start : Blob) (kernel_len : Nat)
    (algorithm : Nat) : Nat :=
  let signature_len := env.siglen_map algorithm
  let digest := env.DigestTwo algorithm kernel_config_start
    KERNEL_CONFIG_FIELD_LEN (Blob.drop kernel_data_start signature_len) kernel_len
  if ¬ env.rsaVerifyDigest kernel_sign_key digest kernel_data_start algorithm then
    VERIFY_KERNEL_SIGNATURE_FAILED
  else
    VERIFY_KERNEL_SUCCESS

/-- Function `VerifyKernel` of `kernel_image_fw.c`: magic check, then header,
config and data verification, each gated on the previous stage. -/
def VerifyKernel (env : Env) (firmware_key_blob kernel_blob : Blob)
    (dev_mode : Bool) : Nat :=
  if blobBytes kernel_blob 0 KERNEL_MAGIC_SIZE ≠ KERNEL_MAGIC_BYTES then
    VERIFY_KERNEL_WRONG_MAGIC
  else
    let header_ptr := Blob.drop kernel_blob KERNEL_MAGIC_SIZE
    let h := VerifyKernelHeader env firmware_key_blob header_ptr dev_mode 0 0 0
    if h.code ≠ VERIFY_KERNEL_SUCCESS then h.code
    else
      let kernel_sign_key_len := env.RSAProcessedKeySize h.kernel_algorithm
      let kernel_sign_key_ptr := Blob.drop header_ptr
        (FIELD_LEN_header_version + FIELD_LEN_header_len +
         FIELD_LEN_firmware_sign_algorithm + FIELD_LEN_kernel_sign_algorithm +
         FIELD_LEN_kernel_key_version)
      let kernel_sign_key := RSAPublicKeyFromBuf kernel_sign_key_ptr kernel_sign_key_len
      let kernel_signature_len := env.siglen_map h.kernel_algorithm
      let kernel_key_signature_len := env.siglen_map h.firmware_algorithm
      let config_ptr := Blob.drop header_ptr
        (h.kernel_header_len + kernel_key_signature_len)
      let c := VerifyKernelConfig env kernel_sign_key config_ptr h.kernel_algorithm 0
      if c.1 ≠ VERIFY_KERNEL_SUCCESS then c.1
      else
        let kernel_ptr := Blob.drop config_ptr
          (KERNEL_CONFIG_FIELD_LEN + kernel_signature_len)
        VerifyKernelData env kernel_sign_key config_ptr kernel_ptr c.2
          h.kernel_algorithm

/-- Function `GetLogicalKernelVersion` of `kernel_image_fw.c`. -/
def GetLogicalKernelVersion (env : Env) (kernel_blob : Blob) : Nat :=
  let p0 := KERNEL_MAGIC_SIZE + FIELD_LEN_header_version + FIELD_LEN_header_len
  let firmware_sign_algorithm := readU16 kernel_blob p0
  let kernel_sign_algorithm :=
    readU16 kernel_blob (p0 + FIELD_LEN_firmware_sign_algorithm)
  let kernel_key_version := readU16 kernel_blob
    (p0 + FIELD_LEN_firmware_sign_algorithm + FIELD_LEN_kernel_sign_algorithm)
  if env.kNumAlgorithms ≤ firmware_sign_algorithm then 0
  else if env.kNumAlgorithms ≤ kernel_sign_algorithm then 0
  else
    let kernel_key_signature_len := env.siglen_map firmware_sign_algorithm
    let kernel_sign_key_len := env.RSAProcessedKeySize kernel_sign_algorithm
    let kernel_version := readU16 kernel_blob
      (p0 + FIELD_LEN_firmware_sign_algorithm + FIELD_LEN_kernel_sign_algorithm +
       FIELD_LEN_kernel_key_version + kernel_sign_key_len +
       FIELD_LEN_header_checksum + kernel_key_signature_len)
    CombineUint16Pair kernel_key_version kernel_version

/-- Modelled from the spec: an A/B candidate (`kernel_entry` of
`kernel_image_fw.h`, absent from src): a kernel blob reference plus the
`boot_priority`, `boot_tries_remaining` and `boot_success_flag`
attributes read from the partition table (§3 KernelEntry). -/
structure kernel_entry where
  kernel_blob : Blob
  boot_priority : Nat
  boot_tries_remaining : Nat
  boot_success_flag : Nat

/-- Modelled from the spec: the two logical slots of the rollback
counter store (`KERNEL_KEY_VERSION`, `KERNEL_VERSION` of
`rollback_index.h`, absent from src); only their distinctness matters. -/
def KERNEL_KEY_VERSION : Nat := 0

def KERNEL_VERSION : Nat := 1

/-- Modelled from the spec: the state of the rollback counter store
(§6): one `uint16` counter per slot plus a per-slot lock flag. -/
structure Tpm where
  kernel_key_version : Nat
  kernel_version : Nat
  kernel_key_version_locked : Bool
  kernel_version_locked : Bool

/-- Modelled from the spec: `GetStoredVersion(slot) -> uint16` (§6). -/
def GetStoredVersion (tpm : Tpm) (slot : Nat) : Nat :=
  (if slot = KERNEL_KEY_VERSION then tpm.kernel_key_version
   else tpm.kernel_version) % 65536

/-- Modelled from the spec: `WriteStoredVersion(slot, uint16)` (§6); the
`% 65536` embeds the `uint16_t` parameter type. -/
def WriteStoredVersion (tpm : Tpm) (slot : Nat) (val : Nat) : Tpm :=
  if slot = KERNEL_KEY_VERSION then { tpm with kernel_key_version := val % 65536 }
  else { tpm with kernel_version := val % 65536 }

/-- Modelled from the spec: `LockStoredVersion(slot)` (§6), idempotent. -/
def LockStoredVersion (tpm : Tpm) (slot : Nat) : Tpm :=
  if slot = KERNEL_KEY_VERSION then { tpm with kernel_key_version_locked := true }
  else { tpm with kernel_version_locked := true }

/-- The try order set up at lines 308-322 of `kernel_image_fw.c`:
`try_kernel`, `try_kernel_which` and `try_kernel_lversion` in positions
0 and 1. -/
structure TryOrder where
  k0 : kernel_entry
  which0 : Nat
  lv0 : Nat
  k1 : kernel_entry
  which1 : Nat
  lv1 : Nat

/-- Candidate ordering of `VerifyKernelDriver_f` (lines 308-322). -/
def tryOrder (kernelA kernelB : kernel_entry) (lvA lvB : Nat) : TryOrder :=
  if kernelB.boot_priority ≤ kernelA.boot_priority then
    ⟨kernelA, BOOT_KERNEL_A_CONTINUE, lvA, kernelB, BOOT_KERNEL_B_CONTINUE, lvB⟩
  else
    ⟨kernelB, BOOT_KERNEL_B_CONTINUE, lvB, kernelA, BOOT_KERNEL_A_CONTINUE, lvA⟩

/-- Iteration `i = 1` of the candidate loop of `VerifyKernelDriver_f`
(lines 327-355), entered with `kernel_to_boot` still at recovery: on the
`continue` (rollback) and at loop exit the recovery sentinel stands.
Returns (kernel_to_boot, final t0, final t1, final store state). -/
def driverIter1 (env : Env) (firmware_key_blob : Blob) (dev_mode : Bool)
    (t0 t1 : kernel_entry) (w1 lv1 stored_lversion : Nat) (tpm : Tpm) :
    Nat × kernel_entry × kernel_entry × Tpm :=
  if (t1.boot_success_flag ≠ 0 ∨ t1.boot_tries_remaining ≠ 0) ∧
      VERIFY_KERNEL_SUCCESS = VerifyKernel env firmware_key_blob t1.kernel_blob dev_mode then
    let t1d := if 0 < t1.boot_tries_remaining then
        { t1 with boot_tries_remaining := t1.boot_tries_remaining - 1 }
      else t1
    if lv1 < stored_lversion then
      (BOOT_KERNEL_RECOVERY_CONTINUE, t0, t1d, tpm)
    else
      (w1, t0, t1d, tpm)
  else
    (BOOT_KERNEL_RECOVERY_CONTINUE, t0, { t1 with boot_priority := 0 }, tpm)

/-- The candidate loop of `VerifyKernelDriver_f` (lines 327-355),
unrolled over its two iterations.  On iteration 0: a `continue`
(rollback skip) proceeds to iteration 1 with `t0`'s tries already
decremented and its priority untouched; a selection runs the stored-
version ratchet against the lower-priority candidate and breaks. -/
def driverLoop (env : Env) (firmware_key_blob : Blob) (dev_mode : Bool)
    (t0 : kernel_entry) (w0 lv0 : Nat) (t1 : kernel_entry) (w1 lv1 : Nat)
    (min_lversion stored_lversion : Nat) (tpm : Tpm) :
    Nat × kernel_entry × kernel_entry × Tpm :=
  if (t0.boot_success_flag ≠ 0 ∨ t0.boot_tries_remaining ≠ 0) ∧
      VERIFY_KERNEL_SUCCESS = VerifyKernel env firmware_key_blob t0.kernel_blob dev_mode then
    let t0d := if 0 < t0.boot_tries_remaining then
        { t0 with boot_tries_remaining := t0.boot_tries_remaining - 1 }
      else t0
    if lv0 < stored_lversion then
      driverIter1 env firmware_key_blob dev_mode t0d t1 w1 lv1 stored_lversion tpm
    else
      let tpm2 :=
        if stored_lversion < lv1 then
          if VERIFY_KERNEL_SUCCESS =
              VerifyKernel env firmware_key_blob t1.kernel_blob dev_mode then
            WriteStoredVersion
              (WriteStoredVersion tpm KERNEL_KEY_VERSION (min_lversion >>> 16))
              KERNEL_VERSION (min_lversion &&& 0xFFFF)
          else tpm
        else tpm
      (w0, t0d, t1, tpm2)
  else
    driverIter1 env firmware_key_blob dev_mode { t0 with boot_priority := 0 }
      t1 w1 lv1 stored_lversion tpm

/-- Function `VerifyKernelDriver_f` of `kernel_image_fw.c`: computes both logical
versions and the stored version, orders the candidates, runs the
candidate loop, and locks both rollback counter slots before returning.
Returns (kernel_to_boot, final kernelA, final kernelB, final store). -/
def VerifyKernelDriver_f (env : Env) (firmware_key_blob : Blob)
    (kernelA kernelB : kernel_entry) (dev_mode : Bool) (tpm : Tpm) :
    Nat × kernel_entry × kernel_entry × Tpm :=
  let kernelA_lversion := GetLogicalKernelVersion env kernelA.kernel_blob
  let kernelB_lversion := GetLogicalKernelVersion env kernelB.kernel_blob
  let min_lversion := Nat.min kernelA_lversion kernelB_lversion
  let stored_lversion := CombineUint16Pair
    (GetStoredVersion tpm KERNEL_KEY_VERSION) (GetStoredVersion tpm KERNEL_VERSION)
  let o := tryOrder kernelA kernelB kernelA_lversion kernelB_lversion
  let r := driverLoop env firmware_key_blob dev_mode o.k0 o.which0 o.lv0
    o.k1 o.which1 o.lv1 min_lversion stored_lversion tpm
  let tpmL := LockStoredVersion (LockStoredVersion r.2.2.2 KERNEL_KEY_VERSION)
    KERNEL_VERSION
  if kernelB.boot_priority ≤ kernelA.boot_priority then
    (r.1, r.2.1, r.2.2.1, tpmL)
  else
    (r.1, r.2.2.1, r.2.1, tpmL)

/-- The all-zero byte buffer (used below as a concrete key blob). -/
def zeroBlob : Blob := fun _ => 0

/-- A concrete kernel blob that the trivial collaborator instantiation
`envT` accepts: the magic prefix, a `header_len` field of 74 (the exact
sum demanded for zero-length keys) and zeroes elsewhere. -/
def blobK : Blob := fun i =>
  if i < 8 then KERNEL_MAGIC_BYTES.getD i 0
  else if i = 10 then 74
  else 0

/-- Like `blobK` but with `kernel_key_version = 7` and
`kernel_version = 9`, so its logical version is `7 <<< 16 ||| 9`. -/
def blobV : Blob := fun i =>
  if i < 8 then KERNEL_MAGIC_BYTES.getD i 0
  else if i = 10 then 74
  else if i = 16 then 7
  else if i = 82 then 9
  else 0

/-- A trivial concrete instantiation of the collaborators: three
supported algorithms, zero-length keys and signatures, an all-zero
digest, and signature checks that always pass. -/
def envT : Env where
  kNumAlgorithms := 3
  RSAProcessedKeySize := fun _ => 0
  siglen_map := fun _ => 0
  DigestBuf := fun _ _ _ => zeroBlob
  DigestTwo := fun _ _ _ _ _ => zeroBlob
  rsaVerifyRaw := fun _ _ _ _ _ => true
  rsaVerifyKey := fun _ _ _ _ _ => true
  rsaVerifyDigest := fun _ _ _ _ => true

/-- Like `envT` but every signature check fails. -/
def envF : Env where
  kNumAlgorithms := 3
  RSAProcessedKeySize := fun _ => 0
  siglen_map := fun _ => 0
  DigestBuf := fun _ _ _ => zeroBlob
  DigestTwo := fun _ _ _ _ _ => zeroBlob
  rsaVerifyRaw := fun _ _ _ _ _ => false
  rsaVerifyKey := fun _ _ _ _ _ => false
  rsaVerifyDigest := fun _ _ _ _ => false

theorem lor_shift_add (x y : Nat) (h : y < 65536) :
    (x <<< 16) ||| y = x * 65536 + y := by
  apply Nat.eq_of_testBit_eq
  intro j
  have hb : y < 2 ^ 16 := h
  have hmain := Nat.testBit_mul_pow_two_add x hb j
  have h2 : 2 ^ 16 * x + y = x * 65536 + y := by ring_nf
  rw [h2] at hmain
  rw [Nat.testBit_lor, Nat.testBit_shiftLeft, hmain]
  by_cases hj : j < 16
  · have hn : ¬ 16 ≤ j := by omega
    simp [hj, hn]
  · have hy : y.testBit j = false :=
      Nat.testBit_lt_two_pow
        (lt_of_lt_of_le hb (Nat.pow_le_pow_right (by norm_num) (by omega)))
    have hge : 16 ≤ j := by omega
    simp [hj, hge, hy]

theorem combine_eq (a b : Nat) :
    CombineUint16Pair a b = (a % 65536) * 65536 + b % 65536 := by
  unfold CombineUint16Pair
  exact lor_shift_add _ _ (Nat.mod_lt _ (by norm_num))

theorem combine_lt (a b : Nat) : CombineUint16Pair a b < 4294967296 := by
  rw [combine_eq]
  have h1 : a % 65536 < 65536 := Nat.mod_lt _ (by norm_num)
  have h2 : b % 65536 < 65536 := Nat.mod_lt _ (by norm_num)
  omega

theorem GetLogicalKernelVersion_lt (env : Env) (b : Blob) :
    GetLogicalKernelVersion env b < 4294967296 := by
  simp only [GetLogicalKernelVersion]
  split
  · norm_num
  · split
    · norm_num
    · exact combine_lt _ _

theorem readU16_lt (b : Blob) (i : Nat) : readU16 b i < 65536 := by
  unfold readU16 byte
  have h1 : b i % 256 < 256 := Nat.mod_lt _ (by norm_num)
  have h2 : b (i + 1) % 256 < 256 := Nat.mod_lt _ (by norm_num)
  omega

/-- C4: for every firmware key, header blob and initial out-parameter
contents, the dev-mode run of `VerifyKernelHeader` writes the same three
output locations as the non-dev run, and its return code differs only by
turning `VERIFY_KERNEL_KEY_SIGNATURE_FAILED` into success; every other
check behaves identically. -/
theorem dev_mode_weakens_only_key_signature (env : Env)
    (firmware_key_blob header_blob : Blob) (fa0 ka0 khl0 : Nat) :
    VerifyKernelHeader env firmware_key_blob header_blob true fa0 ka0 khl0 =
      { code :=
          if (VerifyKernelHeader env firmware_key_blob header_blob false fa0 ka0 khl0).code =
              VERIFY_KERNEL_KEY_SIGNATURE_FAILED
          then VERIFY_KERNEL_SUCCESS
          else (VerifyKernelHeader env firmware_key_blob header_blob false fa0 ka0 khl0).code
        firmware_algorithm :=
          (VerifyKernelHeader env firmware_key_blob header_blob false fa0 ka0 khl0).firmware_algorithm
        kernel_algorithm :=
          (VerifyKernelHeader env firmware_key_blob header_blob false fa0 ka0 khl0).kernel_algorithm
        kernel_header_len :=
          (VerifyKernelHeader env firmware_key_blob header_blob false fa0 ka0 khl0).kernel_header_len } := by
  simp only [VerifyKernelHeader]
  repeat' split
  all_goals simp_all [VERIFY_KERNEL_SUCCESS, VERIFY_KERNEL_INVALID_IMAGE,
    VERIFY_KERNEL_KEY_SIGNATURE_FAILED, VERIFY_KERNEL_INVALID_ALGORITHM]

/-- C5: when either 16-bit algorithm ID read from the header blob is at
or above the supported-algorithm count, `VerifyKernelHeader` returns
`VERIFY_KERNEL_INVALID_ALGORITHM` with every output location untouched,
and the result is the same under an arbitrary replacement of the
key-size table, signature-length table, digest provider and signature
verifier (and of the key blob and dev flag): no table is indexed with
the out-of-range ID and no signature verification is invoked. -/
theorem out_of_range_algorithm_rejected_early (env env2 : Env)
    (firmware_key_blob firmware_key_blob2 header_blob : Blob)
    (dev_mode dev_mode2 : Bool) (fa0 ka0 khl0 : Nat)
    (hn : env2.kNumAlgorithms = env.kNumAlgorithms)
    (h : env.kNumAlgorithms ≤
          readU16 header_blob (FIELD_LEN_header_version + FIELD_LEN_header_len) ∨
         env.kNumAlgorithms ≤
          readU16 header_blob (FIELD_LEN_header_version + FIELD_LEN_header_len +
            FIELD_LEN_firmware_sign_algorithm)) :
    VerifyKernelHeader env firmware_key_blob header_blob dev_mode fa0 ka0 khl0 =
      ⟨VERIFY_KERNEL_INVALID_ALGORITHM, fa0, ka0, khl0⟩ ∧
    VerifyKernelHeader env2 firmware_key_blob2 header_blob dev_mode2 fa0 ka0 khl0 =
      ⟨VERIFY_KERNEL_INVALID_ALGORITHM, fa0, ka0, khl0⟩ := by
  have key : ∀ (e : Env) (fkb : Blob) (dm : Bool),
      e.kNumAlgorithms = env.kNumAlgorithms →
      VerifyKernelHeader e fkb header_blob dm fa0 ka0 khl0 =
        ⟨VERIFY_KERNEL_INVALID_ALGORITHM, fa0, ka0, khl0⟩ := by
    intro e fkb dm he
    simp only [VerifyKernelHeader, he]
    rcases h with h | h
    · rw [if_pos h]
    · by_cases h1 : env.kNumAlgorithms ≤
          readU16 header_blob (FIELD_LEN_header_version + FIELD_LEN_header_len)
      · rw [if_pos h1]
      · rw [if_neg h1, if_pos h]
  exact ⟨key env firmware_key_blob dev_mode rfl,
    key env2 firmware_key_blob2 dev_mode2 hn⟩

/-- Witness for C5 at a concrete header whose firmware algorithm ID is 3
(the supported count): both a passing environment and a failing one with
different key blob and dev flag give the untouched-output rejection. -/
theorem out_of_range_algorithm_rejected_early_witness :
    VerifyKernelHeader envT zeroBlob (fun i => if i = 4 then 3 else 0) false 7 8 9 =
      ⟨VERIFY_KERNEL_INVALID_ALGORITHM, 7, 8, 9⟩ ∧
    VerifyKernelHeader envF zeroBlob (fun i => if i = 4 then 3 else 0) true 7 8 9 =
      ⟨VERIFY_KERNEL_INVALID_ALGORITHM, 7, 8, 9⟩ :=
  out_of_range_algorithm_rejected_early envT envF zeroBlob zeroBlob
    (fun i => if i = 4 then 3 else 0) false true 7 8 9 rfl (Or.inl (by decide))

/-- C6: `VerifyKernelConfig` leaves the `kernel_len` output location
untouched and fails with `VERIFY_KERNEL_CONFIG_SIGNATURE_FAILED` when
the config-region signature does not verify; on success the location
holds the 64-bit length field read from the verified config region. -/
theorem config_kernel_len_written_only_after_signature (env : Env)
    (kernel_sign_key : RSAPublicKey) (config_blob : Blob)
    (algorithm kernel_len0 : Nat) :
    (env.rsaVerifyKey kernel_sign_key config_blob KERNEL_CONFIG_FIELD_LEN
        (Blob.drop config_blob KERNEL_CONFIG_FIELD_LEN) algorithm = false →
      VerifyKernelConfig env kernel_sign_key config_blob algorithm kernel_len0 =
        (VERIFY_KERNEL_CONFIG_SIGNATURE_FAILED, kernel_len0)) ∧
    (env.rsaVerifyKey kernel_sign_key config_blob KERNEL_CONFIG_FIELD_LEN
        (Blob.drop config_blob KERNEL_CONFIG_FIELD_LEN) algorithm = true →
      VerifyKernelConfig env kernel_sign_key config_blob algorithm kernel_len0 =
        (VERIFY_KERNEL_SUCCESS,
          readU64 config_blob (FIELD_LEN_kernel_version +
            FIELD_LEN_options_version + FIELD_LEN_options_cmd_line))) := by
  constructor <;> intro h <;> simp [VerifyKernelConfig, h]

/-- Witness for C6: a failing environment leaves the initial contents 7
in place; a passing one stores the length read from the region (0). -/
theorem config_kernel_len_written_only_after_signature_witness :
    VerifyKernelConfig envF (RSAPublicKeyFromBuf zeroBlob 0) blobK 0 7 =
      (VERIFY_KERNEL_CONFIG_SIGNATURE_FAILED, 7) ∧
    VerifyKernelConfig envT (RSAPublicKeyFromBuf zeroBlob 0) blobK 0 7 =
      (VERIFY_KERNEL_SUCCESS, 0) := by
  refine ⟨(config_kernel_len_written_only_after_signature envF
    (RSAPublicKeyFromBuf zeroBlob 0) blobK 0 7).1 rfl, ?_⟩
  have h := (config_kernel_len_written_only_after_signature envT
    (RSAPublicKeyFromBuf zeroBlob 0) blobK 0 7).2 rfl
  rw [h]
  decide

/-- C8: `GetLogicalKernelVersion` is unchanged under any replacement of
the digest and signature providers (it validates nothing), returns 0
when either algorithm ID is out of the supported range, and otherwise
returns `(kernel_key_version <<< 16) ||| kernel_version` with both
fields read at their offsets. -/
theorem logical_version_assembled_without_validation (env env2 : Env)
    (kernel_blob : Blob)
    (h1 : env2.kNumAlgorithms = env.kNumAlgorithms)
    (h2 : env2.siglen_map = env.siglen_map)
    (h3 : env2.RSAProcessedKeySize = env.RSAProcessedKeySize) :
    GetLogicalKernelVersion env2 kernel_blob = GetLogicalKernelVersion env kernel_blob ∧
    ((env.kNumAlgorithms ≤ readU16 kernel_blob
        (KERNEL_MAGIC_SIZE + FIELD_LEN_header_version + FIELD_LEN_header_len) ∨
      env.kNumAlgorithms ≤ readU16 kernel_blob
        (KERNEL_MAGIC_SIZE + FIELD_LEN_header_version + FIELD_LEN_header_len +
          FIELD_LEN_firmware_sign_algorithm)) →
      GetLogicalKernelVersion env kernel_blob = 0) ∧
    (readU16 kernel_blob
        (KERNEL_MAGIC_SIZE + FIELD_LEN_header_version + FIELD_LEN_header_len) <
          env.kNumAlgorithms →
     readU16 kernel_blob
        (KERNEL_MAGIC_SIZE + FIELD_LEN_header_version + FIELD_LEN_header_len +
          FIELD_LEN_firmware_sign_algorithm) < env.kNumAlgorithms →
      GetLogicalKernelVersion env kernel_blob =
        (readU16 kernel_blob
          (KERNEL_MAGIC_SIZE + FIELD_LEN_header_version + FIELD_LEN_header_len +
            FIELD_LEN_firmware_sign_algorithm + FIELD_LEN_kernel_sign_algorithm) <<< 16) |||
        readU16 kernel_blob
          (KERNEL_MAGIC_SIZE + FIELD_LEN_header_version + FIELD_LEN_header_len +
            FIELD_LEN_firmware_sign_algorithm + FIELD_LEN_kernel_sign_algorithm +
            FIELD_LEN_kernel_key_version +
            env.RSAProcessedKeySize (readU16 kernel_blob
              (KERNEL_MAGIC_SIZE + FIELD_LEN_header_version + FIELD_LEN_header_len +
                FIELD_LEN_firmware_sign_algorithm)) +
            FIELD_LEN_header_checksum +
            env.siglen_map (readU16 kernel_blob
              (KERNEL_MAGIC_SIZE + FIELD_LEN_header_version + FIELD_LEN_header_len)))) := by
  refine ⟨?_, ?_, ?_⟩
  · simp only [GetLogicalKernelVersion, h1, h2, h3]
  · intro h
    simp only [GetLogicalKernelVersion]
    rcases h with h | h
    · rw [if_pos h]
    · by_cases ha : env.kNumAlgorithms ≤ readU16 kernel_blob
          (KERNEL_MAGIC_SIZE + FIELD_LEN_header_version + FIELD_LEN_header_len)
      · rw [if_pos ha]
      · rw [if_neg ha, if_pos h]
  · intro ha hb
    simp only [GetLogicalKernelVersion]
    rw [if_neg (not_le.mpr ha), if_neg (not_le.mpr hb)]
    unfold CombineUint16Pair
    rw [Nat.mod_eq_of_lt (readU16_lt _ _), Nat.mod_eq_of_lt (readU16_lt _ _)]

/-- Witness for C8 at a concrete blob with key version 7, kernel
version 9 and in-range algorithm IDs: the value is 7 · 2¹⁶ + 9, and a
fully failing provider environment computes the same value. -/
theorem logical_version_assembled_without_validation_witness :
    GetLogicalKernelVersion envF blobV = GetLogicalKernelVersion envT blobV ∧
    GetLogicalKernelVersion envT blobV = 458761 := by
  have h := logical_version_assembled_without_validation envT envF blobV rfl rfl rfl
  refine ⟨h.1, ?_⟩
  rw [h.2.2 (by decide) (by decide)]
  decide

theorem driverIter1_result (env : Env) (fkb : Blob) (dev : Bool)
    (t0 t1 : kernel_entry) (w1 lv1 stored : Nat) (tpm : Tpm) :
    (driverIter1 env fkb dev t0 t1 w1 lv1 stored tpm).1 = w1 ∨
    (driverIter1 env fkb dev t0 t1 w1 lv1 stored tpm).1 =
      BOOT_KERNEL_RECOVERY_CONTINUE := by
  simp only [driverIter1]
  split
  · split
    · right; rfl
    · left; rfl
  · right; rfl

theorem driverLoop_result (env : Env) (fkb : Blob) (dev : Bool)
    (t0 : kernel_entry) (w0 lv0 : Nat) (t1 : kernel_entry) (w1 lv1 : Nat)
    (minv stored : Nat) (tpm : Tpm) :
    (driverLoop env fkb dev t0 w0 lv0 t1 w1 lv1 minv stored tpm).1 = w0 ∨
    (driverLoop env fkb dev t0 w0 lv0 t1 w1 lv1 minv stored tpm).1 = w1 ∨
    (driverLoop env fkb dev t0 w0 lv0 t1 w1 lv1 minv stored tpm).1 =
      BOOT_KERNEL_RECOVERY_CONTINUE := by
  simp only [driverLoop]
  split
  · split
    · rcases driverIter1_result env fkb dev _ t1 w1 lv1 stored tpm with h | h
      · right; left; exact h
      · right; right; exact h
    · left; rfl
  · rcases driverIter1_result env fkb dev _ t1 w1 lv1 stored tpm with h | h
    · right; left; exact h
    · right; right; exact h

theorem locks_set (x : Tpm) :
    (LockStoredVersion (LockStoredVersion x KERNEL_KEY_VERSION)
      KERNEL_VERSION).kernel_key_version_locked = true ∧
    (LockStoredVersion (LockStoredVersion x KERNEL_KEY_VERSION)
      KERNEL_VERSION).kernel_version_locked = true := by
  simp [LockStoredVersion, KERNEL_KEY_VERSION, KERNEL_VERSION]

theorem locks_preserve_versions (x : Tpm) (slot : Nat) :
    GetStoredVersion (LockStoredVersion (LockStoredVersion x KERNEL_KEY_VERSION)
      KERNEL_VERSION) slot = GetStoredVersion x slot := by
  by_cases h : slot = KERNEL_KEY_VERSION <;>
    simp [LockStoredVersion, GetStoredVersion, KERNEL_KEY_VERSION, KERNEL_VERSION, h]

/-- C7: on every outcome `VerifyKernelDriver_f` locks both rollback
counter slots before returning, and the result is kernel A, kernel B or
the recovery sentinel, the latter distinct from both slot values. -/
theorem driver_locks_both_slots_every_outcome (env : Env)
    (firmware_key_blob : Blob) (kernelA kernelB : kernel_entry)
    (dev_mode : Bool) (tpm : Tpm) :
    (VerifyKernelDriver_f env firmware_key_blob kernelA kernelB dev_mode
      tpm).2.2.2.kernel_key_version_locked = true ∧
    (VerifyKernelDriver_f env firmware_key_blob kernelA kernelB dev_mode
      tpm).2.2.2.kernel_version_locked = true ∧
    ((VerifyKernelDriver_f env firmware_key_blob kernelA kernelB dev_mode tpm).1 =
        BOOT_KERNEL_A_CONTINUE ∨
     (VerifyKernelDriver_f env firmware_key_blob kernelA kernelB dev_mode tpm).1 =
        BOOT_KERNEL_B_CONTINUE ∨
     (VerifyKernelDriver_f env firmware_key_blob kernelA kernelB dev_mode tpm).1 =
        BOOT_KERNEL_RECOVERY_CONTINUE) ∧
    BOOT_KERNEL_RECOVERY_CONTINUE ≠ BOOT_KERNEL_A_CONTINUE ∧
    BOOT_KERNEL_RECOVERY_CONTINUE ≠ BOOT_KERNEL_B_CONTINUE := by
  by_cases hp : kernelB.boot_priority ≤ kernelA.boot_priority <;>
    simp only [VerifyKernelDriver_f, tryOrder, hp, if_true, if_false,
      ite_true, ite_false]
  · refine ⟨(locks_set _).1, (locks_set _).2, ?_, by decide, by decide⟩
    rcases driverLoop_result env firmware_key_blob dev_mode kernelA
        BOOT_KERNEL_A_CONTINUE (GetLogicalKernelVersion env kernelA.kernel_blob)
        kernelB BOOT_KERNEL_B_CONTINUE (GetLogicalKernelVersion env kernelB.kernel_blob)
        (Nat.min (GetLogicalKernelVersion env kernelA.kernel_blob)
          (GetLogicalKernelVersion env kernelB.kernel_blob))
        (CombineUint16Pair (GetStoredVersion tpm KERNEL_KEY_VERSION)
          (GetStoredVersion tpm KERNEL_VERSION)) tpm with h | h | h
    · exact Or.inl h
    · exact Or.inr (Or.inl h)
    · exact Or.inr (Or.inr h)
  · refine ⟨(locks_set _).1, (locks_set _).2, ?_, by decide, by decide⟩
    rcases driverLoop_result env firmware_key_blob dev_mode kernelB
        BOOT_KERNEL_B_CONTINUE (GetLogicalKernelVersion env kernelB.kernel_blob)
        kernelA BOOT_KERNEL_A_CONTINUE (GetLogicalKernelVersion env kernelA.kernel_blob)
        (Nat.min (GetLogicalKernelVersion env kernelA.kernel_blob)
          (GetLogicalKernelVersion env kernelB.kernel_blob))
        (CombineUint16Pair (GetStoredVersion tpm KERNEL_KEY_VERSION)
          (GetStoredVersion tpm KERNEL_VERSION)) tpm with h | h | h
    · exact Or.inr (Or.inl h)
    · exact Or.inl h
    · exact Or.inr (Or.inr h)

theorem driverIter1_tpm (env : Env) (fkb : Blob) (dev : Bool)
    (t0 t1 : kernel_entry) (w1 lv1 stored : Nat) (tpm : Tpm) :
    (driverIter1 env fkb dev t0 t1 w1 lv1 stored tpm).2.2.2 = tpm := by
  simp only [driverIter1]
  split
  · split <;> rfl
  · rfl

theorem driverIter1_keeps_t0 (env : Env) (fkb : Blob) (dev : Bool)
    (t0 t1 : kernel_entry) (w1 lv1 stored : Nat) (tpm : Tpm) :
    (driverIter1 env fkb dev t0 t1 w1 lv1 stored tpm).2.1 = t0 := by
  simp only [driverIter1]
  split
  · split <;> rfl
  · rfl

theorem driverIter1_rollback (env : Env) (fkb : Blob) (dev : Bool)
    (t0 t1 : kernel_entry) (w1 lv1 stored : Nat) (tpm : Tpm)
    (h : lv1 < stored) :
    (driverIter1 env fkb dev t0 t1 w1 lv1 stored tpm).1 =
      BOOT_KERNEL_RECOVERY_CONTINUE := by
  simp only [driverIter1]
  repeat' split
  all_goals simp_all

theorem driverIter1_frame (env : Env) (fkb : Blob) (dev : Bool)
    (t0 t1 : kernel_entry) (w1 lv1 stored : Nat) (tpm : Tpm) :
    (driverIter1 env fkb dev t0 t1 w1 lv1 stored tpm).2.2.1.kernel_blob =
      t1.kernel_blob ∧
    (driverIter1 env fkb dev t0 t1 w1 lv1 stored tpm).2.2.1.boot_success_flag =
      t1.boot_success_flag ∧
    ((driverIter1 env fkb dev t0 t1 w1 lv1 stored tpm).2.2.1.boot_tries_remaining =
        t1.boot_tries_remaining ∨
      (t1.boot_tries_remaining ≠ 0 ∧
       (driverIter1 env fkb dev t0 t1 w1 lv1 stored tpm).2.2.1.boot_tries_remaining =
         t1.boot_tries_remaining - 1 ∧
       VerifyKernel env fkb t1.kernel_blob dev = VERIFY_KERNEL_SUCCESS)) ∧
    ((driverIter1 env fkb dev t0 t1 w1 lv1 stored tpm).2.2.1.boot_priority =
        t1.boot_priority ∨
     (driverIter1 env fkb dev t0 t1 w1 lv1 stored tpm).2.2.1.boot_priority = 0) := by
  simp only [driverIter1]
  split
  · rename_i hc
    split <;> split <;>
      simp_all <;> omega
  · simp

theorem driverIter1_priority (env : Env) (fkb : Blob) (dev : Bool)
    (t0 t1 : kernel_entry) (w1 lv1 stored : Nat) (tpm : Tpm) :
    (((t1.boot_success_flag ≠ 0 ∨ t1.boot_tries_remaining ≠ 0) ∧
       VERIFY_KERNEL_SUCCESS = VerifyKernel env fkb t1.kernel_blob dev) →
      (driverIter1 env fkb dev t0 t1 w1 lv1 stored tpm).2.2.1.boot_priority =
        t1.boot_priority) ∧
    (¬ ((t1.boot_success_flag ≠ 0 ∨ t1.boot_tries_remaining ≠ 0) ∧
       VERIFY_KERNEL_SUCCESS = VerifyKernel env fkb t1.kernel_blob dev) →
      (driverIter1 env fkb dev t0 t1 w1 lv1 stored tpm).2.2.1.boot_priority = 0) := by
  constructor <;> intro h <;> simp only [driverIter1] <;> repeat' split
  all_goals simp_all

theorem driverLoop_rollback_skip_0 (env : Env) (fkb : Blob) (dev : Bool)
    (t0 : kernel_entry) (w0 lv0 : Nat) (t1 : kernel_entry) (w1 lv1 : Nat)
    (minv stored : Nat) (tpm : Tpm) (h : lv0 < stored) :
    (driverLoop env fkb dev t0 w0 lv0 t1 w1 lv1 minv stored tpm).1 = w1 ∨
    (driverLoop env fkb dev t0 w0 lv0 t1 w1 lv1 minv stored tpm).1 =
      BOOT_KERNEL_RECOVERY_CONTINUE := by
  simp only [driverLoop]
  repeat' split
  all_goals first
    | exact driverIter1_result env fkb dev _ t1 w1 lv1 stored tpm
    | omega

theorem driverLoop_rollback_skip_1 (env : Env) (fkb : Blob) (dev : Bool)
    (t0 : kernel_entry) (w0 lv0 : Nat) (t1 : kernel_entry) (w1 lv1 : Nat)
    (minv stored : Nat) (tpm : Tpm) (h : lv1 < stored) :
    (driverLoop env fkb dev t0 w0 lv0 t1 w1 lv1 minv stored tpm).1 = w0 ∨
    (driverLoop env fkb dev t0 w0 lv0 t1 w1 lv1 minv stored tpm).1 =
      BOOT_KERNEL_RECOVERY_CONTINUE := by
  simp only [driverLoop]
  split
  · split
    · exact Or.inr (driverIter1_rollback env fkb dev _ t1 w1 lv1 stored tpm h)
    · left; rfl
  · exact Or.inr (driverIter1_rollback env fkb dev _ t1 w1 lv1 stored tpm h)

theorem driverLoop_selects_first (env : Env) (fkb : Blob) (dev : Bool)
    (t0 : kernel_entry) (w0 lv0 : Nat) (t1 : kernel_entry) (w1 lv1 : Nat)
    (minv stored : Nat) (tpm : Tpm)
    (he : t0.boot_success_flag ≠ 0 ∨ t0.boot_tries_remaining ≠ 0)
    (hv : VERIFY_KERNEL_SUCCESS = VerifyKernel env fkb t0.kernel_blob dev)
    (hs : ¬ lv0 < stored) :
    (driverLoop env fkb dev t0 w0 lv0 t1 w1 lv1 minv stored tpm).1 = w0 := by
  simp only [driverLoop]
  repeat' split
  all_goals simp_all

theorem driverLoop_tpm (env : Env) (fkb : Blob) (dev : Bool)
    (t0 : kernel_entry) (w0 lv0 : Nat) (t1 : kernel_entry) (w1 lv1 : Nat)
    (minv stored : Nat) (tpm : Tpm) :
    (driverLoop env fkb dev t0 w0 lv0 t1 w1 lv1 minv stored tpm).2.2.2 = tpm ∨
    ((driverLoop env fkb dev t0 w0 lv0 t1 w1 lv1 minv stored tpm).2.2.2 =
        WriteStoredVersion
          (WriteStoredVersion tpm KERNEL_KEY_VERSION (minv >>> 16))
          KERNEL_VERSION (minv &&& 0xFFFF) ∧
      stored ≤ lv0 ∧ stored < lv1) := by
  simp only [driverLoop]
  repeat' split
  all_goals first
    | exact Or.inl (driverIter1_tpm env fkb dev _ t1 w1 lv1 stored tpm)
    | (right; exact ⟨rfl, by omega, by omega⟩)
    | (left; rfl)

theorem driverLoop_frame0 (env : Env) (fkb : Blob) (dev : Bool)
    (t0 : kernel_entry) (w0 lv0 : Nat) (t1 : kernel_entry) (w1 lv1 : Nat)
    (minv stored : Nat) (tpm : Tpm) :
    (driverLoop env fkb dev t0 w0 lv0 t1 w1 lv1 minv stored tpm).2.1.kernel_blob =
      t0.kernel_blob ∧
    (driverLoop env fkb dev t0 w0 lv0 t1 w1 lv1 minv stored tpm).2.1.boot_success_flag =
      t0.boot_success_flag ∧
    ((driverLoop env fkb dev t0 w0 lv0 t1 w1 lv1 minv stored tpm).2.1.boot_tries_remaining =
        t0.boot_tries_remaining ∨
      (t0.boot_tries_remaining ≠ 0 ∧
       (driverLoop env fkb dev t0 w0 lv0 t1 w1 lv1 minv stored tpm).2.1.boot_tries_remaining =
         t0.boot_tries_remaining - 1 ∧
       VerifyKernel env fkb t0.kernel_blob dev = VERIFY_KERNEL_SUCCESS)) ∧
    ((driverLoop env fkb dev t0 w0 lv0 t1 w1 lv1 minv stored tpm).2.1.boot_priority =
        t0.boot_priority ∨
     (driverLoop env fkb dev t0 w0 lv0 t1 w1 lv1 minv stored tpm).2.1.boot_priority = 0) := by
  simp only [driverLoop]
  by_cases hc0 : (t0.boot_success_flag ≠ 0 ∨ t0.boot_tries_remaining ≠ 0) ∧
      VERIFY_KERNEL_SUCCESS = VerifyKernel env fkb t0.kernel_blob dev
  · rw [if_pos hc0]
    by_cases hr : lv0 < stored
    · rw [if_pos hr, driverIter1_keeps_t0]
      by_cases hd : 0 < t0.boot_tries_remaining
      · rw [if_pos hd]
        exact ⟨rfl, rfl, Or.inr ⟨by omega, rfl, hc0.2.symm⟩, Or.inl rfl⟩
      · rw [if_neg hd]
        exact ⟨rfl, rfl, Or.inl rfl, Or.inl rfl⟩
    · rw [if_neg hr]
      by_cases hd : 0 < t0.boot_tries_remaining
      · rw [if_pos hd]
        exact ⟨rfl, rfl, Or.inr ⟨by omega, rfl, hc0.2.symm⟩, Or.inl rfl⟩
      · rw [if_neg hd]
        exact ⟨rfl, rfl, Or.inl rfl, Or.inl rfl⟩
  · rw [if_neg hc0, driverIter1_keeps_t0]
    exact ⟨rfl, rfl, Or.inl rfl, Or.inr rfl⟩

theorem driverLoop_frame1 (env : Env) (fkb : Blob) (dev : Bool)
    (t0 : kernel_entry) (w0 lv0 : Nat) (t1 : kernel_entry) (w1 lv1 : Nat)
    (minv stored : Nat) (tpm : Tpm) :
    (driverLoop env fkb dev t0 w0 lv0 t1 w1 lv1 minv stored tpm).2.2.1.kernel_blob =
      t1.kernel_blob ∧
    (driverLoop env fkb dev t0 w0 lv0 t1 w1 lv1 minv stored tpm).2.2.1.boot_success_flag =
      t1.boot_success_flag ∧
    ((driverLoop env fkb dev t0 w0 lv0 t1 w1 lv1 minv stored tpm).2.2.1.boot_tries_remaining =
        t1.boot_tries_remaining ∨
      (t1.boot_tries_remaining ≠ 0 ∧
       (driverLoop env fkb dev t0 w0 lv0 t1 w1 lv1 minv stored tpm).2.2.1.boot_tries_remaining =
         t1.boot_tries_remaining - 1 ∧
       VerifyKernel env fkb t1.kernel_blob dev = VERIFY_KERNEL_SUCCESS)) ∧
    ((driverLoop env fkb dev t0 w0 lv0 t1 w1 lv1 minv stored tpm).2.2.1.boot_priority =
        t1.boot_priority ∨
     (driverLoop env fkb dev t0 w0 lv0 t1 w1 lv1 minv stored tpm).2.2.1.boot_priority = 0) := by
  simp only [driverLoop]
  by_cases hc0 : (t0.boot_success_flag ≠ 0 ∨ t0.boot_tries_remaining ≠ 0) ∧
      VERIFY_KERNEL_SUCCESS = VerifyKernel env fkb t0.kernel_blob dev
  · rw [if_pos hc0]
    by_cases hr : lv0 < stored
    · rw [if_pos hr]
      exact driverIter1_frame env fkb dev _ t1 w1 lv1 stored tpm
    · rw [if_neg hr]
      exact ⟨rfl, rfl, Or.inl rfl, Or.inl rfl⟩
  · rw [if_neg hc0]
    exact driverIter1_frame env fkb dev _ t1 w1 lv1 stored tpm

theorem driverLoop_priority0 (env : Env) (fkb : Blob) (dev : Bool)
    (t0 : kernel_entry) (w0 lv0 : Nat) (t1 : kernel_entry) (w1 lv1 : Nat)
    (minv stored : Nat) (tpm : Tpm) :
    (((t0.boot_success_flag ≠ 0 ∨ t0.boot_tries_remaining ≠ 0) ∧
       VERIFY_KERNEL_SUCCESS = VerifyKernel env fkb t0.kernel_blob dev) →
      (driverLoop env fkb dev t0 w0 lv0 t1 w1 lv1 minv stored tpm).2.1.boot_priority =
        t0.boot_priority) ∧
    (¬ ((t0.boot_success_flag ≠ 0 ∨ t0.boot_tries_remaining ≠ 0) ∧
       VERIFY_KERNEL_SUCCESS = VerifyKernel env fkb t0.kernel_blob dev) →
      (driverLoop env fkb dev t0 w0 lv0 t1 w1 lv1 minv stored tpm).2.1.boot_priority = 0) := by
  constructor <;> intro h <;> simp only [driverLoop]
  · rw [if_pos h]
    by_cases hr : lv0 < stored
    · rw [if_pos hr, driverIter1_keeps_t0]
      split <;> rfl
    · rw [if_neg hr]
      split <;> rfl
  · rw [if_neg h, driverIter1_keeps_t0]

theorem driverLoop_priority1 (env : Env) (fkb : Blob) (dev : Bool)
    (t0 : kernel_entry) (w0 lv0 : Nat) (t1 : kernel_entry) (w1 lv1 : Nat)
    (minv stored : Nat) (tpm : Tpm) :
    ((((t0.boot_success_flag ≠ 0 ∨ t0.boot_tries_remaining ≠ 0) ∧
        VERIFY_KERNEL_SUCCESS = VerifyKernel env fkb t0.kernel_blob dev) ∧
      ¬ lv0 < stored) →
      (driverLoop env fkb dev t0 w0 lv0 t1 w1 lv1 minv stored tpm).2.2.1.boot_priority =
        t1.boot_priority) ∧
    (¬ (((t0.boot_success_flag ≠ 0 ∨ t0.boot_tries_remaining ≠ 0) ∧
        VERIFY_KERNEL_SUCCESS = VerifyKernel env fkb t0.kernel_blob dev) ∧
      ¬ lv0 < stored) →
      ((((t1.boot_success_flag ≠ 0 ∨ t1.boot_tries_remaining ≠ 0) ∧
         VERIFY_KERNEL_SUCCESS = VerifyKernel env fkb t1.kernel_blob dev) →
        (driverLoop env fkb dev t0 w0 lv0 t1 w1 lv1 minv stored tpm).2.2.1.boot_priority =
          t1.boot_priority) ∧
       (¬ ((t1.boot_success_flag ≠ 0 ∨ t1.boot_tries_remaining ≠ 0) ∧
         VERIFY_KERNEL_SUCCESS = VerifyKernel env fkb t1.kernel_blob dev) →
        (driverLoop env fkb dev t0 w0 lv0 t1 w1 lv1 minv stored tpm).2.2.1.boot_priority =
          0))) := by
  constructor
  · rintro ⟨hc0, hr⟩
    simp only [driverLoop]
    rw [if_pos hc0, if_neg hr]
  · intro h
    simp only [driverLoop]
    by_cases hc0 : (t0.boot_success_flag ≠ 0 ∨ t0.boot_tries_remaining ≠ 0) ∧
        VERIFY_KERNEL_SUCCESS = VerifyKernel env fkb t0.kernel_blob dev
    · rw [if_pos hc0]
      by_cases hr : lv0 < stored
      · rw [if_pos hr]
        exact driverIter1_priority env fkb dev _ t1 w1 lv1 stored tpm
      · exact absurd ⟨hc0, hr⟩ h
    · rw [if_neg hc0]
      exact driverIter1_priority env fkb dev _ t1 w1 lv1 stored tpm

/-- C1: a candidate that is eligible and verifies but whose logical
version is strictly below the stored minimum version read at the start
of the call is never returned by `VerifyKernelDriver_f` as the boot
target (the rollback check skips it and processing moves on). -/
theorem rollback_candidate_never_selected (env : Env) (firmware_key_blob : Blob)
    (kernelA kernelB : kernel_entry) (dev_mode : Bool) (tpm : Tpm) :
    (((kernelA.boot_success_flag ≠ 0 ∨ kernelA.boot_tries_remaining ≠ 0) →
      VerifyKernel env firmware_key_blob kernelA.kernel_blob dev_mode =
        VERIFY_KERNEL_SUCCESS →
      GetLogicalKernelVersion env kernelA.kernel_blob <
        CombineUint16Pair (GetStoredVersion tpm KERNEL_KEY_VERSION)
          (GetStoredVersion tpm KERNEL_VERSION) →
      (VerifyKernelDriver_f env firmware_key_blob kernelA kernelB dev_mode tpm).1 ≠
        BOOT_KERNEL_A_CONTINUE)) ∧
    (((kernelB.boot_success_flag ≠ 0 ∨ kernelB.boot_tries_remaining ≠ 0) →
      VerifyKernel env firmware_key_blob kernelB.kernel_blob dev_mode =
        VERIFY_KERNEL_SUCCESS →
      GetLogicalKernelVersion env kernelB.kernel_blob <
        CombineUint16Pair (GetStoredVersion tpm KERNEL_KEY_VERSION)
          (GetStoredVersion tpm KERNEL_VERSION) →
      (VerifyKernelDriver_f env firmware_key_blob kernelA kernelB dev_mode tpm).1 ≠
        BOOT_KERNEL_B_CONTINUE)) := by
  constructor
  · intro _ _ hlt
    by_cases hp : kernelB.boot_priority ≤ kernelA.boot_priority <;>
      simp only [VerifyKernelDriver_f, tryOrder, hp, if_true, if_false,
        ite_true, ite_false]
    · rcases driverLoop_rollback_skip_0 env firmware_key_blob dev_mode kernelA
          BOOT_KERNEL_A_CONTINUE (GetLogicalKernelVersion env kernelA.kernel_blob)
          kernelB BOOT_KERNEL_B_CONTINUE (GetLogicalKernelVersion env kernelB.kernel_blob)
          (Nat.min (GetLogicalKernelVersion env kernelA.kernel_blob)
            (GetLogicalKernelVersion env kernelB.kernel_blob))
          (CombineUint16Pair (GetStoredVersion tpm KERNEL_KEY_VERSION)
            (GetStoredVersion tpm KERNEL_VERSION)) tpm hlt with h | h <;>
        (simp only [BOOT_KERNEL_A_CONTINUE, BOOT_KERNEL_B_CONTINUE,
          BOOT_KERNEL_RECOVERY_CONTINUE] at h ⊢; omega)
    · rcases driverLoop_rollback_skip_1 env firmware_key_blob dev_mode kernelB
          BOOT_KERNEL_B_CONTINUE (GetLogicalKernelVersion env kernelB.kernel_blob)
          kernelA BOOT_KERNEL_A_CONTINUE (GetLogicalKernelVersion env kernelA.kernel_blob)
          (Nat.min (GetLogicalKernelVersion env kernelA.kernel_blob)
            (GetLogicalKernelVersion env kernelB.kernel_blob))
          (CombineUint16Pair (GetStoredVersion tpm KERNEL_KEY_VERSION)
            (GetStoredVersion tpm KERNEL_VERSION)) tpm hlt with h | h <;>
        (simp only [BOOT_KERNEL_A_CONTINUE, BOOT_KERNEL_B_CONTINUE,
          BOOT_KERNEL_RECOVERY_CONTINUE] at h ⊢; omega)
  · intro _ _ hlt
    by_cases hp : kernelB.boot_priority ≤ kernelA.boot_priority <;>
      simp only [VerifyKernelDriver_f, tryOrder, hp, if_true, if_false,
        ite_true, ite_false]
    · rcases driverLoop_rollback_skip_1 env firmware_key_blob dev_mode kernelA
          BOOT_KERNEL_A_CONTINUE (GetLogicalKernelVersion env kernelA.kernel_blob)
          kernelB BOOT_KERNEL_B_CONTINUE (GetLogicalKernelVersion env kernelB.kernel_blob)
          (Nat.min (GetLogicalKernelVersion env kernelA.kernel_blob)
            (GetLogicalKernelVersion env kernelB.kernel_blob))
          (CombineUint16Pair (GetStoredVersion tpm KERNEL_KEY_VERSION)
            (GetStoredVersion tpm KERNEL_VERSION)) tpm hlt with h | h <;>
        (simp only [BOOT_KERNEL_A_CONTINUE, BOOT_KERNEL_B_CONTINUE,
          BOOT_KERNEL_RECOVERY_CONTINUE] at h ⊢; omega)
    · rcases driverLoop_rollback_skip_0 env firmware_key_blob dev_mode kernelB
          BOOT_KERNEL_B_CONTINUE (GetLogicalKernelVersion env kernelB.kernel_blob)
          kernelA BOOT_KERNEL_A_CONTINUE (GetLogicalKernelVersion env kernelA.kernel_blob)
          (Nat.min (GetLogicalKernelVersion env kernelA.kernel_blob)
            (GetLogicalKernelVersion env kernelB.kernel_blob))
          (CombineUint16Pair (GetStoredVersion tpm KERNEL_KEY_VERSION)
            (GetStoredVersion tpm KERNEL_VERSION)) tpm hlt with h | h <;>
        (simp only [BOOT_KERNEL_A_CONTINUE, BOOT_KERNEL_B_CONTINUE,
          BOOT_KERNEL_RECOVERY_CONTINUE] at h ⊢; omega)

/-- Witness for C1: kernel A (priority 5, 1 try) verifies but its
logical version 0 is below the stored minimum 5, so it is skipped. -/
theorem rollback_candidate_never_selected_witness :
    (VerifyKernelDriver_f envT zeroBlob ⟨blobK, 5, 1, 0⟩ ⟨blobK, 1, 0, 0⟩ false
      ⟨0, 5, false, false⟩).1 ≠ BOOT_KERNEL_A_CONTINUE :=
  (rollback_candidate_never_selected envT zeroBlob ⟨blobK, 5, 1, 0⟩
    ⟨blobK, 1, 0, 0⟩ false ⟨0, 5, false, false⟩).1
    (Or.inr (by decide)) (by decide) (by decide)

theorem write_pair_combine (tpm : Tpm) (minv : Nat) (h : minv < 4294967296) :
    CombineUint16Pair
      (GetStoredVersion (WriteStoredVersion
        (WriteStoredVersion tpm KERNEL_KEY_VERSION (minv >>> 16))
        KERNEL_VERSION (minv &&& 0xFFFF)) KERNEL_KEY_VERSION)
      (GetStoredVersion (WriteStoredVersion
        (WriteStoredVersion tpm KERNEL_KEY_VERSION (minv >>> 16))
        KERNEL_VERSION (minv &&& 0xFFFF)) KERNEL_VERSION) = minv := by
  have ha : minv >>> 16 = minv / 65536 := by
    rw [Nat.shiftRight_eq_div_pow]
  have hb : minv &&& 65535 = minv % 65536 := by
    have h2 := Nat.and_pow_two_sub_one_eq_mod minv 16
    norm_num at h2
    exact h2
  simp only [WriteStoredVersion, GetStoredVersion, KERNEL_KEY_VERSION,
    KERNEL_VERSION, combine_eq, ha, hb]
  norm_num
  omega

/-- C2: across one call of `VerifyKernelDriver_f` the stored logical
version never decreases: the final recombined stored version is either
the initial one or `min(lversionA, lversionB)`, and in either case is at
least the stored version read at the start of the call. -/
theorem stored_version_never_decreases (env : Env) (firmware_key_blob : Blob)
    (kernelA kernelB : kernel_entry) (dev_mode : Bool) (tpm : Tpm) :
    CombineUint16Pair (GetStoredVersion tpm KERNEL_KEY_VERSION)
        (GetStoredVersion tpm KERNEL_VERSION) ≤
      CombineUint16Pair
        (GetStoredVersion (VerifyKernelDriver_f env firmware_key_blob kernelA
          kernelB dev_mode tpm).2.2.2 KERNEL_KEY_VERSION)
        (GetStoredVersion (VerifyKernelDriver_f env firmware_key_blob kernelA
          kernelB dev_mode tpm).2.2.2 KERNEL_VERSION) ∧
    (CombineUint16Pair
        (GetStoredVersion (VerifyKernelDriver_f env firmware_key_blob kernelA
          kernelB dev_mode tpm).2.2.2 KERNEL_KEY_VERSION)
        (GetStoredVersion (VerifyKernelDriver_f env firmware_key_blob kernelA
          kernelB dev_mode tpm).2.2.2 KERNEL_VERSION) =
        CombineUint16Pair (GetStoredVersion tpm KERNEL_KEY_VERSION)
          (GetStoredVersion tpm KERNEL_VERSION) ∨
     CombineUint16Pair
        (GetStoredVersion (VerifyKernelDriver_f env firmware_key_blob kernelA
          kernelB dev_mode tpm).2.2.2 KERNEL_KEY_VERSION)
        (GetStoredVersion (VerifyKernelDriver_f env firmware_key_blob kernelA
          kernelB dev_mode tpm).2.2.2 KERNEL_VERSION) =
        Nat.min (GetLogicalKernelVersion env kernelA.kernel_blob)
          (GetLogicalKernelVersion env kernelB.kernel_blob)) := by
  have hmin : Nat.min (GetLogicalKernelVersion env kernelA.kernel_blob)
      (GetLogicalKernelVersion env kernelB.kernel_blob) < 4294967296 :=
    lt_of_le_of_lt (Nat.min_le_left _ _)
      (GetLogicalKernelVersion_lt env kernelA.kernel_blob)
  by_cases hp : kernelB.boot_priority ≤ kernelA.boot_priority <;>
    simp only [VerifyKernelDriver_f, tryOrder, hp, if_true, if_false,
      ite_true, ite_false] <;>
    simp only [locks_preserve_versions]
  · rcases driverLoop_tpm env firmware_key_blob dev_mode kernelA
        BOOT_KERNEL_A_CONTINUE (GetLogicalKernelVersion env kernelA.kernel_blob)
        kernelB BOOT_KERNEL_B_CONTINUE (GetLogicalKernelVersion env kernelB.kernel_blob)
        (Nat.min (GetLogicalKernelVersion env kernelA.kernel_blob)
          (GetLogicalKernelVersion env kernelB.kernel_blob))
        (CombineUint16Pair (GetStoredVersion tpm KERNEL_KEY_VERSION)
          (GetStoredVersion tpm KERNEL_VERSION)) tpm with h | ⟨h, h0, h1⟩
    · rw [h]
      exact ⟨le_refl _, Or.inl rfl⟩
    · rw [h, write_pair_combine _ _ hmin]
      exact ⟨le_min h0 (le_of_lt h1), Or.inr rfl⟩
  · rcases driverLoop_tpm env firmware_key_blob dev_mode kernelB
        BOOT_KERNEL_B_CONTINUE (GetLogicalKernelVersion env kernelB.kernel_blob)
        kernelA BOOT_KERNEL_A_CONTINUE (GetLogicalKernelVersion env kernelA.kernel_blob)
        (Nat.min (GetLogicalKernelVersion env kernelA.kernel_blob)
          (GetLogicalKernelVersion env kernelB.kernel_blob))
        (CombineUint16Pair (GetStoredVersion tpm KERNEL_KEY_VERSION)
          (GetStoredVersion tpm KERNEL_VERSION)) tpm with h | ⟨h, h0, h1⟩
    · rw [h]
      exact ⟨le_refl _, Or.inl rfl⟩
    · rw [h, write_pair_combine _ _ hmin]
      exact ⟨le_min (le_of_lt h1) h0, Or.inr rfl⟩

/-- C9: candidates are tried in descending `boot_priority` order with
ties going to kernel A: when both candidates are eligible, verify, and
pass the rollback check, the selected kernel is B exactly when B's
priority is strictly greater, and the first position of the try order is
B exactly under the same condition. -/
theorem priority_order_and_tie_break (env : Env) (firmware_key_blob : Blob)
    (kernelA kernelB : kernel_entry) (dev_mode : Bool) (tpm : Tpm)
    (hAe : kernelA.boot_success_flag ≠ 0 ∨ kernelA.boot_tries_remaining ≠ 0)
    (hAv : VerifyKernel env firmware_key_blob kernelA.kernel_blob dev_mode =
      VERIFY_KERNEL_SUCCESS)
    (hBe : kernelB.boot_success_flag ≠ 0 ∨ kernelB.boot_tries_remaining ≠ 0)
    (hBv : VerifyKernel env firmware_key_blob kernelB.kernel_blob dev_mode =
      VERIFY_KERNEL_SUCCESS)
    (hsA : CombineUint16Pair (GetStoredVersion tpm KERNEL_KEY_VERSION)
        (GetStoredVersion tpm KERNEL_VERSION) ≤
      GetLogicalKernelVersion env kernelA.kernel_blob)
    (hsB : CombineUint16Pair (GetStoredVersion tpm KERNEL_KEY_VERSION)
        (GetStoredVersion tpm KERNEL_VERSION) ≤
      GetLogicalKernelVersion env kernelB.kernel_blob) :
    (VerifyKernelDriver_f env firmware_key_blob kernelA kernelB dev_mode tpm).1 =
      (if kernelA.boot_priority < kernelB.boot_priority then BOOT_KERNEL_B_CONTINUE
       else BOOT_KERNEL_A_CONTINUE) ∧
    (∀ lvA lvB : Nat,
      (tryOrder kernelA kernelB lvA lvB).which0 = BOOT_KERNEL_B_CONTINUE ↔
        kernelA.boot_priority < kernelB.boot_priority) := by
  constructor
  · by_cases hp : kernelB.boot_priority ≤ kernelA.boot_priority <;>
      simp only [VerifyKernelDriver_f, tryOrder, hp, if_true, if_false,
        ite_true, ite_false]
    · rw [driverLoop_selects_first env firmware_key_blob dev_mode kernelA
          BOOT_KERNEL_A_CONTINUE (GetLogicalKernelVersion env kernelA.kernel_blob)
          kernelB BOOT_KERNEL_B_CONTINUE (GetLogicalKernelVersion env kernelB.kernel_blob)
          (Nat.min (GetLogicalKernelVersion env kernelA.kernel_blob)
            (GetLogicalKernelVersion env kernelB.kernel_blob))
          (CombineUint16Pair (GetStoredVersion tpm KERNEL_KEY_VERSION)
            (GetStoredVersion tpm KERNEL_VERSION)) tpm hAe hAv.symm (by omega),
        if_neg (by omega)]
    · rw [driverLoop_selects_first env firmware_key_blob dev_mode kernelB
          BOOT_KERNEL_B_CONTINUE (GetLogicalKernelVersion env kernelB.kernel_blob)
          kernelA BOOT_KERNEL_A_CONTINUE (GetLogicalKernelVersion env kernelA.kernel_blob)
          (Nat.min (GetLogicalKernelVersion env kernelA.kernel_blob)
            (GetLogicalKernelVersion env kernelB.kernel_blob))
          (CombineUint16Pair (GetStoredVersion tpm KERNEL_KEY_VERSION)
            (GetStoredVersion tpm KERNEL_VERSION)) tpm hBe hBv.symm (by omega),
        if_pos (by omega)]
  · intro lvA lvB
    by_cases hp : kernelB.boot_priority ≤ kernelA.boot_priority
    · have hw : (tryOrder kernelA kernelB lvA lvB).which0 = BOOT_KERNEL_A_CONTINUE := by
        unfold tryOrder
        rw [if_pos hp]
      rw [hw]
      simp only [BOOT_KERNEL_A_CONTINUE, BOOT_KERNEL_B_CONTINUE]
      constructor <;> intro h <;> omega
    · have hw : (tryOrder kernelA kernelB lvA lvB).which0 = BOOT_KERNEL_B_CONTINUE := by
        unfold tryOrder
        rw [if_neg hp]
      rw [hw]
      constructor
      · intro _
        omega
      · intro _
        rfl

/-- Witness for C9: two eligible, verifying candidates with equal
priority 3 and stored version 0: the tie selects kernel A. -/
theorem priority_order_and_tie_break_witness :
    (VerifyKernelDriver_f envT zeroBlob ⟨blobK, 3, 1, 0⟩ ⟨blobK, 3, 1, 0⟩ false
      ⟨0, 0, false, false⟩).1 =
      (if (3 : Nat) < 3 then BOOT_KERNEL_B_CONTINUE else BOOT_KERNEL_A_CONTINUE) :=
  (priority_order_and_tie_break envT zeroBlob ⟨blobK, 3, 1, 0⟩ ⟨blobK, 3, 1, 0⟩
    false ⟨0, 0, false, false⟩ (Or.inr (by decide)) (by decide)
    (Or.inr (by decide)) (by decide) (by decide) (by decide)).1

/-- C10: `VerifyKernelDriver_f` mutates at most `boot_priority` and
`boot_tries_remaining`: for each candidate, `kernel_blob` and
`boot_success_flag` are unchanged, `boot_tries_remaining` is unchanged
or decremented exactly once — and only when that candidate's blob
verified and its tries count was nonzero — and `boot_priority` is
unchanged or set to 0. -/
theorem driver_mutates_only_priority_and_tries (env : Env)
    (firmware_key_blob : Blob) (kernelA kernelB : kernel_entry)
    (dev_mode : Bool) (tpm : Tpm) :
    ((VerifyKernelDriver_f env firmware_key_blob kernelA kernelB dev_mode
        tpm).2.1.kernel_blob = kernelA.kernel_blob ∧
     (VerifyKernelDriver_f env firmware_key_blob kernelA kernelB dev_mode
        tpm).2.1.boot_success_flag = kernelA.boot_success_flag ∧
     ((VerifyKernelDriver_f env firmware_key_blob kernelA kernelB dev_mode
         tpm).2.1.boot_tries_remaining = kernelA.boot_tries_remaining ∨
       (kernelA.boot_tries_remaining ≠ 0 ∧
        (VerifyKernelDriver_f env firmware_key_blob kernelA kernelB dev_mode
          tpm).2.1.boot_tries_remaining = kernelA.boot_tries_remaining - 1 ∧
        VerifyKernel env firmware_key_blob kernelA.kernel_blob dev_mode =
          VERIFY_KERNEL_SUCCESS)) ∧
     ((VerifyKernelDriver_f env firmware_key_blob kernelA kernelB dev_mode
         tpm).2.1.boot_priority = kernelA.boot_priority ∨
      (VerifyKernelDriver_f env firmware_key_blob kernelA kernelB dev_mode
         tpm).2.1.boot_priority = 0)) ∧
    ((VerifyKernelDriver_f env firmware_key_blob kernelA kernelB dev_mode
        tpm).2.2.1.kernel_blob = kernelB.kernel_blob ∧
     (VerifyKernelDriver_f env firmware_key_blob kernelA kernelB dev_mode
        tpm).2.2.1.boot_success_flag = kernelB.boot_success_flag ∧
     ((VerifyKernelDriver_f env firmware_key_blob kernelA kernelB dev_mode
         tpm).2.2.1.boot_tries_remaining = kernelB.boot_tries_remaining ∨
       (kernelB.boot_tries_remaining ≠ 0 ∧
        (VerifyKernelDriver_f env firmware_key_blob kernelA kernelB dev_mode
          tpm).2.2.1.boot_tries_remaining = kernelB.boot_tries_remaining - 1 ∧
        VerifyKernel env firmware_key_blob kernelB.kernel_blob dev_mode =
          VERIFY_KERNEL_SUCCESS)) ∧
     ((VerifyKernelDriver_f env firmware_key_blob kernelA kernelB dev_mode
         tpm).2.2.1.boot_priority = kernelB.boot_priority ∨
      (VerifyKernelDriver_f env firmware_key_blob kernelA kernelB dev_mode
         tpm).2.2.1.boot_priority = 0)) := by
  by_cases hp : kernelB.boot_priority ≤ kernelA.boot_priority <;>
    simp only [VerifyKernelDriver_f, tryOrder, hp, if_true, if_false,
      ite_true, ite_false]
  · exact ⟨driverLoop_frame0 env firmware_key_blob dev_mode kernelA
        BOOT_KERNEL_A_CONTINUE (GetLogicalKernelVersion env kernelA.kernel_blob)
        kernelB BOOT_KERNEL_B_CONTINUE (GetLogicalKernelVersion env kernelB.kernel_blob)
        (Nat.min (GetLogicalKernelVersion env kernelA.kernel_blob)
          (GetLogicalKernelVersion env kernelB.kernel_blob))
        (CombineUint16Pair (GetStoredVersion tpm KERNEL_KEY_VERSION)
          (GetStoredVersion tpm KERNEL_VERSION)) tpm,
      driverLoop_frame1 env firmware_key_blob dev_mode kernelA
        BOOT_KERNEL_A_CONTINUE (GetLogicalKernelVersion env kernelA.kernel_blob)
        kernelB BOOT_KERNEL_B_CONTINUE (GetLogicalKernelVersion env kernelB.kernel_blob)
        (Nat.min (GetLogicalKernelVersion env kernelA.kernel_blob)
          (GetLogicalKernelVersion env kernelB.kernel_blob))
        (CombineUint16Pair (GetStoredVersion tpm KERNEL_KEY_VERSION)
          (GetStoredVersion tpm KERNEL_VERSION)) tpm⟩
  · exact ⟨driverLoop_frame1 env firmware_key_blob dev_mode kernelB
        BOOT_KERNEL_B_CONTINUE (GetLogicalKernelVersion env kernelB.kernel_blob)
        kernelA BOOT_KERNEL_A_CONTINUE (GetLogicalKernelVersion env kernelA.kernel_blob)
        (Nat.min (GetLogicalKernelVersion env kernelA.kernel_blob)
          (GetLogicalKernelVersion env kernelB.kernel_blob))
        (CombineUint16Pair (GetStoredVersion tpm KERNEL_KEY_VERSION)
          (GetStoredVersion tpm KERNEL_VERSION)) tpm,
      driverLoop_frame0 env firmware_key_blob dev_mode kernelB
        BOOT_KERNEL_B_CONTINUE (GetLogicalKernelVersion env kernelB.kernel_blob)
        kernelA BOOT_KERNEL_A_CONTINUE (GetLogicalKernelVersion env kernelA.kernel_blob)
        (Nat.min (GetLogicalKernelVersion env kernelA.kernel_blob)
          (GetLogicalKernelVersion env kernelB.kernel_blob))
        (CombineUint16Pair (GetStoredVersion tpm KERNEL_KEY_VERSION)
          (GetStoredVersion tpm KERNEL_VERSION)) tpm⟩

/-- C3 counterexample: kernel A (priority 5, one try) is eligible and
verifies but is skipped for rollback (its logical version 0 is below the
stored minimum 5); kernel B is ineligible.  The call returns the
recovery sentinel, yet kernel A — not selected — keeps boot_priority 5:
the `continue` in the source skips the `boot_priority = 0` line. -/
theorem unselected_priority_reset_counterexample :
    (VerifyKernelDriver_f envT zeroBlob ⟨blobK, 5, 1, 0⟩ ⟨blobK, 1, 0, 0⟩ false
      ⟨0, 5, false, false⟩).1 = BOOT_KERNEL_RECOVERY_CONTINUE ∧
    (VerifyKernelDriver_f envT zeroBlob ⟨blobK, 5, 1, 0⟩ ⟨blobK, 1, 0, 0⟩ false
      ⟨0, 5, false, false⟩).2.1.boot_priority = 5 := by
  constructor <;> decide

/-- C3 (amended): a candidate's `boot_priority` is reset to 0 exactly
when its loop iteration runs and it is ineligible or fails verification.
A candidate that verified keeps its priority even when it is skipped for
rollback, and the lower-priority candidate keeps its priority whenever
the higher-priority one is selected (its iteration never runs). -/
theorem priority_reset_only_on_failed_attempt (env : Env)
    (firmware_key_blob : Blob) (kernelA kernelB : kernel_entry)
    (dev_mode : Bool) (tpm : Tpm) :
    (kernelB.boot_priority ≤ kernelA.boot_priority →
      ((¬ ((kernelA.boot_success_flag ≠ 0 ∨ kernelA.boot_tries_remaining ≠ 0) ∧
          VERIFY_KERNEL_SUCCESS =
            VerifyKernel env firmware_key_blob kernelA.kernel_blob dev_mode) →
        (VerifyKernelDriver_f env firmware_key_blob kernelA kernelB dev_mode
          tpm).2.1.boot_priority = 0) ∧
       (((kernelA.boot_success_flag ≠ 0 ∨ kernelA.boot_tries_remaining ≠ 0) ∧
          VERIFY_KERNEL_SUCCESS =
            VerifyKernel env firmware_key_blob kernelA.kernel_blob dev_mode) →
        (VerifyKernelDriver_f env firmware_key_blob kernelA kernelB dev_mode
          tpm).2.1.boot_priority = kernelA.boot_priority) ∧
       ((((kernelA.boot_success_flag ≠ 0 ∨ kernelA.boot_tries_remaining ≠ 0) ∧
           VERIFY_KERNEL_SUCCESS =
             VerifyKernel env firmware_key_blob kernelA.kernel_blob dev_mode) ∧
         ¬ GetLogicalKernelVersion env kernelA.kernel_blob <
             CombineUint16Pair (GetStoredVersion tpm KERNEL_KEY_VERSION)
               (GetStoredVersion tpm KERNEL_VERSION)) →
        (VerifyKernelDriver_f env firmware_key_blob kernelA kernelB dev_mode
          tpm).2.2.1.boot_priority = kernelB.boot_priority) ∧
       (¬ (((kernelA.boot_success_flag ≠ 0 ∨ kernelA.boot_tries_remaining ≠ 0) ∧
           VERIFY_KERNEL_SUCCESS =
             VerifyKernel env firmware_key_blob kernelA.kernel_blob dev_mode) ∧
         ¬ GetLogicalKernelVersion env kernelA.kernel_blob <
             CombineUint16Pair (GetStoredVersion tpm KERNEL_KEY_VERSION)
               (GetStoredVersion tpm KERNEL_VERSION)) →
        ((((kernelB.boot_success_flag ≠ 0 ∨ kernelB.boot_tries_remaining ≠ 0) ∧
           VERIFY_KERNEL_SUCCESS =
             VerifyKernel env firmware_key_blob kernelB.kernel_blob dev_mode) →
          (VerifyKernelDriver_f env firmware_key_blob kernelA kernelB dev_mode
            tpm).2.2.1.boot_priority = kernelB.boot_priority) ∧
         (¬ ((kernelB.boot_success_flag ≠ 0 ∨ kernelB.boot_tries_remaining ≠ 0) ∧
           VERIFY_KERNEL_SUCCESS =
             VerifyKernel env firmware_key_blob kernelB.kernel_blob dev_mode) →
          (VerifyKernelDriver_f env firmware_key_blob kernelA kernelB dev_mode
            tpm).2.2.1.boot_priority = 0))))) ∧
    (¬ kernelB.boot_priority ≤ kernelA.boot_priority →
      ((¬ ((kernelB.boot_success_flag ≠ 0 ∨ kernelB.boot_tries_remaining ≠ 0) ∧
          VERIFY_KERNEL_SUCCESS =
            VerifyKernel env firmware_key_blob kernelB.kernel_blob dev_mode) →
        (VerifyKernelDriver_f env firmware_key_blob kernelA kernelB dev_mode
          tpm).2.2.1.boot_priority = 0) ∧
       (((kernelB.boot_success_flag ≠ 0 ∨ kernelB.boot_tries_remaining ≠ 0) ∧
          VERIFY_KERNEL_SUCCESS =
            VerifyKernel env firmware_key_blob kernelB.kernel_blob dev_mode) →
        (VerifyKernelDriver_f env firmware_key_blob kernelA kernelB dev_mode
          tpm).2.2.1.boot_priority = kernelB.boot_priority) ∧
       ((((kernelB.boot_success_flag ≠ 0 ∨ kernelB.boot_tries_remaining ≠ 0) ∧
           VERIFY_KERNEL_SUCCESS =
             VerifyKernel env firmware_key_blob kernelB.kernel_blob dev_mode) ∧
         ¬ GetLogicalKernelVersion env kernelB.kernel_blob <
             CombineUint16Pair (GetStoredVersion tpm KERNEL_KEY_VERSION)
               (GetStoredVersion tpm KERNEL_VERSION)) →
        (VerifyKernelDriver_f env firmware_key_blob kernelA kernelB dev_mode
          tpm).2.1.boot_priority = kernelA.boot_priority) ∧
       (¬ (((kernelB.boot_success_flag ≠ 0 ∨ kernelB.boot_tries_remaining ≠ 0) ∧
           VERIFY_KERNEL_SUCCESS =
             VerifyKernel env firmware_key_blob kernelB.kernel_blob dev_mode) ∧
         ¬ GetLogicalKernelVersion env kernelB.kernel_blob <
             CombineUint16Pair (GetStoredVersion tpm KERNEL_KEY_VERSION)
               (GetStoredVersion tpm KERNEL_VERSION)) →
        ((((kernelA.boot_success_flag ≠ 0 ∨ kernelA.boot_tries_remaining ≠ 0) ∧
           VERIFY_KERNEL_SUCCESS =
             VerifyKernel env firmware_key_blob kernelA.kernel_blob dev_mode) →
          (VerifyKernelDriver_f env firmware_key_blob kernelA kernelB dev_mode
            tpm).2.1.boot_priority = kernelA.boot_priority) ∧
         (¬ ((kernelA.boot_success_flag ≠ 0 ∨ kernelA.boot_tries_remaining ≠ 0) ∧
           VERIFY_KERNEL_SUCCESS =
             VerifyKernel env firmware_key_blob kernelA.kernel_blob dev_mode) →
          (VerifyKernelDriver_f env firmware_key_blob kernelA kernelB dev_mode
            tpm).2.1.boot_priority = 0))))) := by
  constructor <;> intro hp <;>
    simp only [VerifyKernelDriver_f, tryOrder, hp, if_true, if_false,
      ite_true, ite_false, not_true, not_false_iff]
  · exact ⟨(driverLoop_priority0 env firmware_key_blob dev_mode kernelA
        BOOT_KERNEL_A_CONTINUE (GetLogicalKernelVersion env kernelA.kernel_blob)
        kernelB BOOT_KERNEL_B_CONTINUE (GetLogicalKernelVersion env kernelB.kernel_blob)
        (Nat.min (GetLogicalKernelVersion env kernelA.kernel_blob)
          (GetLogicalKernelVersion env kernelB.kernel_blob))
        (CombineUint16Pair (GetStoredVersion tpm KERNEL_KEY_VERSION)
          (GetStoredVersion tpm KERNEL_VERSION)) tpm).2,
      (driverLoop_priority0 env firmware_key_blob dev_mode kernelA
        BOOT_KERNEL_A_CONTINUE (GetLogicalKernelVersion env kernelA.kernel_blob)
        kernelB BOOT_KERNEL_B_CONTINUE (GetLogicalKernelVersion env kernelB.kernel_blob)
        (Nat.min (GetLogicalKernelVersion env kernelA.kernel_blob)
          (GetLogicalKernelVersion env kernelB.kernel_blob))
        (CombineUint16Pair (GetStoredVersion tpm KERNEL_KEY_VERSION)
          (GetStoredVersion tpm KERNEL_VERSION)) tpm).1,
      (driverLoop_priority1 env firmware_key_blob dev_mode kernelA
        BOOT_KERNEL_A_CONTINUE (GetLogicalKernelVersion env kernelA.kernel_blob)
        kernelB BOOT_KERNEL_B_CONTINUE (GetLogicalKernelVersion env kernelB.kernel_blob)
        (Nat.min (GetLogicalKernelVersion env kernelA.kernel_blob)
          (GetLogicalKernelVersion env kernelB.kernel_blob))
        (CombineUint16Pair (GetStoredVersion tpm KERNEL_KEY_VERSION)
          (GetStoredVersion tpm KERNEL_VERSION)) tpm).1,
      (driverLoop_priority1 env firmware_key_blob dev_mode kernelA
        BOOT_KERNEL_A_CONTINUE (GetLogicalKernelVersion env kernelA.kernel_blob)
        kernelB BOOT_KERNEL_B_CONTINUE (GetLogicalKernelVersion env kernelB.kernel_blob)
        (Nat.min (GetLogicalKernelVersion env kernelA.kernel_blob)
          (GetLogicalKernelVersion env kernelB.kernel_blob))
        (CombineUint16Pair (GetStoredVersion tpm KERNEL_KEY_VERSION)
          (GetStoredVersion tpm KERNEL_VERSION)) tpm).2⟩
  · exact ⟨(driverLoop_priority0 env firmware_key_blob dev_mode kernelB
        BOOT_KERNEL_B_CONTINUE (GetLogicalKernelVersion env kernelB.kernel_blob)
        kernelA BOOT_KERNEL_A_CONTINUE (GetLogicalKernelVersion env kernelA.kernel_blob)
        (Nat.min (GetLogicalKernelVersion env kernelA.kernel_blob)
          (GetLogicalKernelVersion env kernelB.kernel_blob))
        (CombineUint16Pair (GetStoredVersion tpm KERNEL_KEY_VERSION)
          (GetStoredVersion tpm KERNEL_VERSION)) tpm).2,
      (driverLoop_priority0 env firmware_key_blob dev_mode kernelB
        BOOT_KERNEL_B_CONTINUE (GetLogicalKernelVersion env kernelB.kernel_blob)
        kernelA BOOT_KERNEL_A_CONTINUE (GetLogicalKernelVersion env kernelA.kernel_blob)
        (Nat.min (GetLogicalKernelVersion env kernelA.kernel_blob)
          (GetLogicalKernelVersion env kernelB.kernel_blob))
        (CombineUint16Pair (GetStoredVersion tpm KERNEL_KEY_VERSION)
          (GetStoredVersion tpm KERNEL_VERSION)) tpm).1,
      (driverLoop_priority1 env firmware_key_blob dev_mode kernelB
        BOOT_KERNEL_B_CONTINUE (GetLogicalKernelVersion env kernelB.kernel_blob)
        kernelA BOOT_KERNEL_A_CONTINUE (GetLogicalKernelVersion env kernelA.kernel_blob)
        (Nat.min (GetLogicalKernelVersion env kernelA.kernel_blob)
          (GetLogicalKernelVersion env kernelB.kernel_blob))
        (CombineUint16Pair (GetStoredVersion tpm KERNEL_KEY_VERSION)
          (GetStoredVersion tpm KERNEL_VERSION)) tpm).1,
      (driverLoop_priority1 env firmware_key_blob dev_mode kernelB
        BOOT_KERNEL_B_CONTINUE (GetLogicalKernelVersion env kernelB.kernel_blob)
        kernelA BOOT_KERNEL_A_CONTINUE (GetLogicalKernelVersion env kernelA.kernel_blob)
        (Nat.min (GetLogicalKernelVersion env kernelA.kernel_blob)
          (GetLogicalKernelVersion env kernelB.kernel_blob))
        (CombineUint16Pair (GetStoredVersion tpm KERNEL_KEY_VERSION)
          (GetStoredVersion tpm KERNEL_VERSION)) tpm).2⟩

/-- Witness for the amended C3 at the counterexample input: kernel A
(verified, rollback-skipped) keeps priority 5 while ineligible kernel B
is reset to 0. -/
theorem priority_reset_only_on_failed_attempt_witness :
    (VerifyKernelDriver_f envT zeroBlob ⟨blobK, 5, 1, 0⟩ ⟨blobK, 1, 0, 0⟩ false
      ⟨0, 5, false, false⟩).2.1.boot_priority = 5 ∧
    (VerifyKernelDriver_f envT zeroBlob ⟨blobK, 5, 1, 0⟩ ⟨blobK, 1, 0, 0⟩ false
      ⟨0, 5, false, false⟩).2.2.1.boot_priority = 0 := by
  have h := (priority_reset_only_on_failed_attempt envT zeroBlob
    ⟨blobK, 5, 1, 0⟩ ⟨blobK, 1, 0, 0⟩ false ⟨0, 5, false, false⟩).1 (by decide)
  exact ⟨h.2.1 (by decide), (h.2.2.2 (by decide)).2 (by decide)⟩
